import Mathlib

/-!
Verification of the oatpp virtual-transport and HTTP connection-processing
sources (`oatpp/network/virtual_/Interface.cpp`, `oatpp/web/server/HttpProcessor.cpp`,
`oatpp/web/server/HttpConnectionHandler.cpp`) against their natural-language
specification.  The C++ sources are shallowly embedded: each C++ function that
a claim refers to becomes a Lean function over explicit state, and the claims
become theorems about those functions.
-/

namespace Oatpp

/-- Headers are modelled as an ordered association list of (name, value)
pairs, matching the observable behaviour of the oatpp `Headers` collection
used through `putHeaderIfNotExists` and value lookups. -/
abbrev Headers := List (String × String)

/-- Embedding of `oatpp::web::protocol::http::outgoing::Response` as far as
the processor observes it: a status code, a message/body, and headers. -/
structure Response where
  status : Nat
  message : String
  headers : Headers
deriving DecidableEq, Repr

/-- Embedding of `oatpp::web::protocol::http::incoming::Request` as far as
the processor observes it: method, path, protocol version and headers
(the body stream and decoder are passed through unexamined and are omitted). -/
structure Request where
  method : String
  path : String
  version : String
  headers : Headers
deriving DecidableEq, Repr

/-- Result contract of the external `RequestHeadersReader::readHeaders`:
a protocol-error status code (`error.status.code`, 0 when no protocol error),
the low-level I/O status (`error.ioStatus`), and the parsed starting line
and headers. -/
structure HeadersReadResult where
  errorStatusCode : Nat
  ioStatus : Int
  method : String
  path : String
  version : String
  headers : Headers
deriving DecidableEq, Repr

/-- Construction of the incoming Request from the headers-read result,
as `Request::createShared(startingLine, matchMap, headers, stream, decoder)`
does (stream/decoder omitted, match map not observed by any claim). -/
def mkRequest (rr : HeadersReadResult) : Request :=
  ⟨rr.method, rr.path, rr.version, rr.headers⟩

/-- Faults that the try-block of `HttpProcessor::processRequest` can catch:
an `oatpp::web::protocol::http::HttpError` carrying status/message/headers,
a `std::exception` carrying only a message, or any other thrown value. -/
inductive Exn where
  | httpError (status : Nat) (msg : String) (headers : Headers)
  | stdExn (msg : String)
  | unknown
deriving DecidableEq, Repr

/-- Embedding of the external `ErrorHandler::handleError(status, message,
headers)` collaborator: an arbitrary function producing a Response. -/
abbrev ErrorHandler := Nat → String → Headers → Response

/-- Embedding of a request interceptor: `intercept(request)` returns a
Response, or null (pass through), or throws. -/
abbrev Interceptor := Request → Except Exn (Option Response)

/-- Embedding of an endpoint handler: `handle(request)` returns a Response
or throws. -/
abbrev Endpoint := Request → Except Exn Response

/-- Embedding of a matched `Route`: the claims only observe its endpoint
(the match map is carried into the Request unexamined). -/
structure Route where
  endpoint : Endpoint

/-- Test whether a header with the given name is present, the check made by
`Response::putHeaderIfNotExists`. -/
def headerExists (key : String) (hs : Headers) : Bool :=
  hs.any (fun p => p.1 == key)

/-- Embedding of `Response::putHeaderIfNotExists(key, value)`. -/
def putHeaderIfNotExists (key value : String) (hs : Headers) : Headers :=
  if headerExists key hs then hs else hs ++ [(key, value)]

/-- Modelled from the spec: the server identification header name
(`protocol::http::Header::SERVER`, defined outside the given sources). -/
def SERVER : String := "Server"

/-- Modelled from the spec: the server identification header value
(`protocol::http::Header::Value::SERVER`, defined outside the given sources). -/
def SERVER_VALUE : String := "oatpp Web Framework"

/-- Connection-state enumeration
(`CommunicationUtils::CONNECTION_STATE_{CLOSE, KEEP_ALIVE, UPGRADE}`). -/
inductive ConnectionState where
  | CLOSE
  | KEEP_ALIVE
  | UPGRADE
deriving DecidableEq, Repr

/-- Test whether some header with the given name has the given value. -/
def headerValueIs (key value : String) (hs : Headers) : Bool :=
  hs.any (fun p => p.1 == key && p.2 == value)

/-- Modelled from the spec:
`CommunicationUtils::considerConnectionState(request, response)` is not in
the given sources; per the spec it derives the ConnectionState from the
request/response headers — an explicit upgrade request gives UPGRADE, an
explicit close gives CLOSE, otherwise the protocol-version default applies,
with HTTP/1.1 defaulting to KEEP_ALIVE. -/
def considerConnectionState (req : Request) (resp : Response) : ConnectionState :=
  if headerValueIs "Connection" "Upgrade" req.headers then
    ConnectionState.UPGRADE
  else if headerValueIs "Connection" "close" req.headers
       || headerValueIs "Connection" "close" resp.headers then
    ConnectionState.CLOSE
  else if req.version == "HTTP/1.1" then
    ConnectionState.KEEP_ALIVE
  else
    ConnectionState.CLOSE

/-- Embedding of the interceptor loop shared verbatim by
`HttpProcessor::processRequest` and `HttpProcessor::Coroutine::onHeadersParsed`:
walk the registered interceptors in order; the first non-null Response stops
the walk; a thrown fault aborts it. -/
def interceptorLoop : List Interceptor → Request → Except Exn (Option Response)
  | [], _ => Except.ok none
  | i :: rest, req =>
    match i req with
    | Except.error e => Except.error e
    | Except.ok (some r) => Except.ok (some r)
    | Except.ok none => interceptorLoop rest req

/-- Embedding of the body of the try-block in `HttpProcessor::processRequest`:
run the interceptor chain; if no interceptor produced a Response, dispatch to
the endpoint. -/
def tryBlock (ints : List Interceptor) (ep : Endpoint) (req : Request) :
    Except Exn Response :=
  match interceptorLoop ints req with
  | Except.error e => Except.error e
  | Except.ok (some r) => Except.ok r
  | Except.ok none => ep req

/-- Embedding of the three catch-arms of `HttpProcessor::processRequest`
(step 6 of the spec's pipeline): an `HttpError` keeps its status, message and
headers; a `std::exception` maps to 500 with its message; anything else maps
to 500 with a generic message. -/
def syncFaultResponse (eh : ErrorHandler) (e : Exn) : Response :=
  match e with
  | Exn.httpError s m hs => eh s m hs
  | Exn.stdExn m => eh 500 m []
  | Exn.unknown => eh 500 "Unknown error" []

/-- Embedding of `HttpProcessor::processRequest`.  `router` models
`HttpRouter::getRoute(method, path)`; `rr` is the result of the external
headers reader; `connectionState` is the value held by the caller's
`v_int32&` out-parameter before the call (the C++ only assigns it on some
paths, so the incoming value is threaded through and returned). -/
def processRequest (router : String → String → Option Route)
    (rr : HeadersReadResult) (errorHandler : ErrorHandler)
    (ints : List Interceptor) (connectionState : ConnectionState) :
    Option Response × ConnectionState :=
  if rr.errorStatusCode ≠ 0 then
    (some (errorHandler rr.errorStatusCode "Invalid request headers" []),
     ConnectionState.CLOSE)
  else if rr.ioStatus ≤ 0 then
    (none, ConnectionState.CLOSE)
  else
    match router rr.method rr.path with
    | none =>
      (some (errorHandler 404 "Current url has no mapping" []),
       ConnectionState.CLOSE)
    | some route =>
      let request := mkRequest rr
      match tryBlock ints route.endpoint request with
      | Except.error e => (some (syncFaultResponse errorHandler e), connectionState)
      | Except.ok resp =>
        let resp' : Response :=
          { resp with headers := putHeaderIfNotExists SERVER SERVER_VALUE resp.headers }
        (some resp', considerConnectionState request resp')

/-- States the asynchronous coroutine can yield to from
`HttpProcessor::Coroutine::onHeadersParsed`. -/
inductive CoroutineStep where
  | responseFormed (r : Response)
  | requestFormed
  | errorTransition (e : Exn)
deriving DecidableEq, Repr

/-- Embedding of `HttpProcessor::Coroutine::onHeadersParsed`: resolve the
route (404 error Response on a miss), then run the same interceptor loop as
the synchronous pipeline; a non-null interceptor Response yields to
`onResponseFormed`, otherwise the coroutine proceeds to `onRequestFormed`
(endpoint dispatch); a fault raised by an interceptor reaches the
coroutine's error transition. -/
def onHeadersParsed (router : String → String → Option Route)
    (errorHandler : ErrorHandler) (ints : List Interceptor)
    (rr : HeadersReadResult) : CoroutineStep :=
  match router rr.method rr.path with
  | none => CoroutineStep.responseFormed (errorHandler 404 "Current url has no mapping" [])
  | some _ =>
    match interceptorLoop ints (mkRequest rr) with
    | Except.error e => CoroutineStep.errorTransition e
    | Except.ok (some r) => CoroutineStep.responseFormed r
    | Except.ok none => CoroutineStep.requestFormed

/-- Modelled from the spec: the numeric value of
`oatpp::data::IOError::BROKEN_PIPE` is defined outside the given sources;
only its distinctness from other codes is observed. -/
def BROKEN_PIPE : Int := -1003

/-- The message carried by a fault, as `what()` reports it inside the
asynchronous framework. -/
def Exn.what : Exn → String
  | Exn.httpError _ m _ => m
  | Exn.stdExn m => m
  | Exn.unknown => "Unknown error"

/-- Embedding of the `oatpp::async::Error` object received by
`HttpProcessor::Coroutine::handleError`: whether it is an `AsyncIOError`,
its I/O code when it is, and its `what()` message. -/
structure AsyncError where
  isAsyncIOError : Bool
  ioCode : Int
  msg : String
deriving DecidableEq, Repr

/-- Modelled from the spec: a fault raised during an asynchronous exchange
reaches the coroutine's error transition as a type-erased async error
carrying only its `what()` message (the conversion lives in the async
framework, outside the given sources). -/
def faultToAsyncError (e : Exn) : AsyncError :=
  ⟨false, 0, e.what⟩

/-- Outcome of `HttpProcessor::Coroutine::handleError`: yield to
`onResponseFormed` with an error Response, surface the fault to the
scheduler dropping the connection (the logged branch), or return the
broken-pipe fault silently. -/
inductive HandleErrorAction where
  | yieldToResponseFormed (r : Response)
  | surfaceToScheduler
  | silentReturn
deriving DecidableEq, Repr

/-- Embedding of `HttpProcessor::Coroutine::handleError`: a broken-pipe
`AsyncIOError` is returned without report; otherwise, when a Response is
already in flight the connection is dropped and the fault surfaced; when no
Response is in flight, the error handler is invoked with status 500 and the
fault's message, and the coroutine yields to `onResponseFormed`. -/
def coroutineHandleError (errorHandler : ErrorHandler)
    (currentResponse : Option Response) (e : AsyncError) : HandleErrorAction :=
  if e.isAsyncIOError && e.ioCode == BROKEN_PIPE then
    HandleErrorAction.silentReturn
  else
    match currentResponse with
    | some _ => HandleErrorAction.surfaceToScheduler
    | none => HandleErrorAction.yieldToResponseFormed (errorHandler 500 e.msg [])

/-- The error mapping the spec asserts for the asynchronous error
transition, stated from the spec's words for the refinement comparison of
claim C2: the same contract as step 6 of the synchronous pipeline,
preserving the most specific status/message/headers the fault carries. -/
def specAsyncErrorResponse (eh : ErrorHandler) (e : Exn) : Response :=
  match e with
  | Exn.httpError s m hs => eh s m hs
  | Exn.stdExn m => eh 500 m []
  | Exn.unknown => eh 500 "Unknown error" []

/-! Virtual transport: `oatpp::network::virtual_::Interface` and its
`ConnectionSubmission`. -/

/-- Embedding of `Interface::ConnectionSubmission`: the optional socket
result (`m_socket`, none while unset — a null `shared_ptr`) and the
validity flag (`m_valid`).  Sockets are identified by numeric ids. -/
structure ConnectionSubmission where
  m_socket : Option Nat
  m_valid : Bool
deriving DecidableEq, Repr

/-- Embedding of `ConnectionSubmission::setSocket(socket)`: assigns
`m_socket` under the lock and notifies one waiter.  The assignment is
unconditional. -/
def setSocket (s : ConnectionSubmission) (socket : Nat) : ConnectionSubmission :=
  { s with m_socket := some socket }

/-- Embedding of `ConnectionSubmission::getSocket()`: the wait loop runs
while `m_socket` is unset and the submission is valid; on the states the
claims examine (loop already exited) it returns `m_socket`. -/
def getSocket (s : ConnectionSubmission) : Option Nat :=
  s.m_socket

/-- Embedding of `ConnectionSubmission::getSocketNonBlocking()`.  The
outcome of the `try_to_lock` acquisition is an explicit input:
`lockAcquired = false` models a contended mutex.  When valid and the lock
is acquired it returns `m_socket`; in every other case it returns the null
socket. -/
def getSocketNonBlocking (s : ConnectionSubmission) (lockAcquired : Bool) :
    Option Nat :=
  if s.m_valid then
    if lockAcquired then s.m_socket else none
  else none

/-- Embedding of `oatpp::network::virtual_::Socket`: a pair of pipe ids,
(inbound pipe, outbound pipe), as built by `Socket::createShared`. -/
structure Socket where
  pipeIn : Nat
  pipeOut : Nat
deriving DecidableEq, Repr

/-- State of one `Interface`: the FIFO queue of pending submissions
(`m_submissions`, front = oldest, submissions identified by numeric ids),
a counter supplying fresh submission ids, a counter supplying fresh pipe
ids, and the record of fulfillments performed by `setSocket` (submission id
paired with the client socket it received, in fulfillment order). -/
structure VInterfaceState where
  m_submissions : List Nat
  nextSub : Nat
  nextPipe : Nat
  fulfilled : List (Nat × Socket)
deriving DecidableEq, Repr

/-- The empty Interface: no pending submissions, no fulfillments. -/
def initVInterface : VInterfaceState :=
  ⟨[], 0, 0, []⟩

/-- Embedding of `Interface::connect()`: makes a fresh submission, pushes
it at the back of `m_submissions`, notifies one accepter, and returns the
submission (its id here). -/
def connect (st : VInterfaceState) : Nat × VInterfaceState :=
  (st.nextSub,
   { st with m_submissions := st.m_submissions ++ [st.nextSub],
             nextSub := st.nextSub + 1 })

/-- Embedding of `Interface::accept(true)` together with
`Interface::acceptSubmission`: when the queue is non-empty, pop the oldest
submission, create two fresh pipes, form the server socket `(pipeIn,
pipeOut)` and the client socket `(pipeOut, pipeIn)`, fulfill the popped
submission with the client socket, and return the server socket.  An empty
queue means the call would block: `none`. -/
def accept (st : VInterfaceState) : Option (Socket × VInterfaceState) :=
  match st.m_submissions with
  | [] => none
  | sub :: rest =>
    let pipeIn := st.nextPipe
    let pipeOut := st.nextPipe + 1
    let serverSocket : Socket := ⟨pipeIn, pipeOut⟩
    let clientSocket : Socket := ⟨pipeOut, pipeIn⟩
    some (serverSocket,
          { st with m_submissions := rest,
                    nextPipe := st.nextPipe + 2,
                    fulfilled := st.fulfilled ++ [(sub, clientSocket)] })

/-- Run `n` consecutive `connect()` calls, collecting the returned
submission ids in call order. -/
def runConnects : VInterfaceState → Nat → List Nat × VInterfaceState
  | st, 0 => ([], st)
  | st, n + 1 =>
    let p := connect st
    let q := runConnects p.2 n
    (p.1 :: q.1, q.2)

/-- Run `n` consecutive `accept(true)` calls (stopping if the queue ever
empties, which cannot happen in the runs the claims examine). -/
def runAccepts : VInterfaceState → Nat → VInterfaceState
  | st, 0 => st
  | st, n + 1 =>
    match accept st with
    | none => st
    | some p => runAccepts p.2 n

/-! Registry: `Interface::m_registry`, `registerInterface`,
`unregisterInterface`, `obtainShared`. -/

/-- A registry slot: a `std::weak_ptr<Interface>` that is either still
alive (locking yields the interface, identified by a numeric id) or
expired (the interface's last strong reference was dropped; locking yields
a null pointer). -/
inductive WeakEntry where
  | alive (id : Nat)
  | expired
deriving DecidableEq, Repr

/-- Embedding of `std::weak_ptr::lock()`. -/
def lockEntry : WeakEntry → Option Nat
  | WeakEntry.alive i => some i
  | WeakEntry.expired => none

/-- Lookup in the registry association list (`m_registry.find(name)`). -/
def findEntry : List (String × WeakEntry) → String → Option WeakEntry
  | [], _ => none
  | (n, e) :: rest, name => if n == name then some e else findEntry rest name

/-- Replace a name's registry slot. -/
def setEntry : List (String × WeakEntry) → String → WeakEntry →
    List (String × WeakEntry)
  | [], _, _ => []
  | (n, e) :: rest, name, e' =>
    if n == name then (n, e') :: rest else (n, e) :: setEntry rest name e'

/-- Erase a name from the registry (`m_registry.erase(it)`). -/
def eraseEntry : List (String × WeakEntry) → String → List (String × WeakEntry)
  | [], _ => []
  | (n, e) :: rest, name =>
    if n == name then rest else (n, e) :: eraseEntry rest name

/-- State of the process-wide registry: the name-keyed table of weak
entries plus a counter supplying ids for freshly constructed Interfaces. -/
structure RegistryState where
  entries : List (String × WeakEntry)
  nextId : Nat
deriving DecidableEq, Repr

/-- Embedding of `Interface::obtainShared(name)`: under the registry lock,
if the table holds an entry for the name, return the result of locking its
weak pointer (a null interface when the entry has expired — the lookup
performs no re-check); otherwise construct a fresh Interface, register it
(the name was just found absent, so `registerInterface` does not throw),
and return it. -/
def obtainShared (st : RegistryState) (name : String) :
    Option Nat × RegistryState :=
  match findEntry st.entries name with
  | some e => (lockEntry e, st)
  | none =>
    (some st.nextId,
     { entries := (name, WeakEntry.alive st.nextId) :: st.entries,
       nextId := st.nextId + 1 })

/-- Lifecycle events of the registry.  `dropLastRef` is the moment the last
`shared_ptr` to an Interface is destroyed: the control block expires every
weak pointer before the destructor body runs, so the registry briefly holds
an expired entry.  `runDtor` is the destructor body
(`~Interface` → `unregisterInterface`), which erases the entry; it can be
delayed past other registry operations because it must first acquire the
registry mutex. -/
inductive RegEvent where
  | obtain (name : String)
  | dropLastRef (name : String)
  | runDtor (name : String)
deriving DecidableEq, Repr

/-- One registry lifecycle step. -/
def stepReg (st : RegistryState) (ev : RegEvent) : RegistryState :=
  match ev with
  | RegEvent.obtain name => (obtainShared st name).2
  | RegEvent.dropLastRef name =>
    { st with entries := setEntry st.entries name WeakEntry.expired }
  | RegEvent.runDtor name =>
    { st with entries := eraseEntry st.entries name }

/-- Run a sequence of registry lifecycle events from a state. -/
def runReg (st : RegistryState) (evs : List RegEvent) : RegistryState :=
  evs.foldl stepReg st

/-! Connection handler: `oatpp::web::server::HttpConnectionHandler`. -/

/-- Opaque error-handler objects held by the connection handler
(`std::shared_ptr<handler::ErrorHandler>` values, identified by id). -/
structure EHObj where
  id : Nat
deriving DecidableEq, Repr

/-- The object produced by `handler::DefaultErrorHandler::createShared()`. -/
def defaultEH : EHObj :=
  ⟨0⟩

/-- Embedding of the fields of `HttpConnectionHandler`: the router, the
body decoder, the error handler (`none` models a null `shared_ptr`), and
the request-interceptor list.  Router, decoder and interceptors are opaque
ids as no claim examines their structure. -/
structure HttpConnectionHandler where
  m_router : Nat
  m_bodyDecoder : Nat
  m_errorHandler : Option EHObj
  m_requestInterceptors : List Nat
deriving DecidableEq, Repr

/-- Embedding of the `HttpConnectionHandler` constructor: stores the
router, creates a `SimpleBodyDecoder`, and installs a default error
handler. -/
def mkHttpConnectionHandler (router : Nat) : HttpConnectionHandler :=
  ⟨router, 0, some defaultEH, []⟩

/-- Embedding of `HttpConnectionHandler::setErrorHandler(errorHandler)`:
assigns the argument to `m_errorHandler`, then, if the field is null,
replaces it with a freshly created default error handler. -/
def setErrorHandler (h : HttpConnectionHandler) (arg : Option EHObj) :
    HttpConnectionHandler :=
  let h1 := { h with m_errorHandler := arg }
  if h1.m_errorHandler.isSome then h1
  else { h1 with m_errorHandler := some defaultEH }

/-- A server world: the handler plus the connection tasks already spawned
(and detached) by `handleConnection`, identified by their connection ids. -/
structure ServerWorld where
  handler : HttpConnectionHandler
  runningTasks : List Nat
deriving DecidableEq, Repr

/-- Embedding of `HttpConnectionHandler::handleConnection`: spawns a
detached task for the connection. -/
def handleConnection (w : ServerWorld) (conn : Nat) : ServerWorld :=
  { w with runningTasks := w.runningTasks ++ [conn] }

/-- Embedding of `HttpConnectionHandler::stop()`: the body is empty
(`// DO NOTHING`). -/
def stop (w : ServerWorld) : ServerWorld :=
  w

/-- The list a, a+1, ..., a+n-1 of consecutive ids, used to describe the
submission ids handed out by consecutive `connect()` calls. -/
def idsFrom : Nat → Nat → List Nat
  | _, 0 => []
  | a, n + 1 => a :: idsFrom (a + 1) n

/-! Concrete fixtures used to evaluate the embedded operations on explicit
inputs. -/

/-- A transparent error handler that echoes the status, message and headers
it is given into the Response. -/
def ehEcho : ErrorHandler :=
  fun s m hs => ⟨s, m, hs⟩

/-- An endpoint that raises an `HttpError` with status 503 and message
"overloaded". -/
def ep503 : Endpoint :=
  fun _ => Except.error (Exn.httpError 503 "overloaded" [])

/-- The route dispatching to `ep503`. -/
def faultRoute : Route :=
  ⟨ep503⟩

/-- A router mapping GET /fault to `faultRoute`. -/
def faultRouter : String → String → Option Route :=
  fun m p => if m == "GET" && p == "/fault" then some faultRoute else none

/-- A headers-read result for GET /fault, no protocol error, healthy I/O. -/
def rrFault : HeadersReadResult :=
  ⟨0, 1, "GET", "/fault", "HTTP/1.0", []⟩

/-- An endpoint that returns a 200 Response with message "hello". -/
def epOK : Endpoint :=
  fun _ => Except.ok ⟨200, "hello", []⟩

/-- The route dispatching to `epOK`. -/
def okRoute : Route :=
  ⟨epOK⟩

/-- A router mapping GET /ok to `okRoute`. -/
def okRouter : String → String → Option Route :=
  fun m p => if m == "GET" && p == "/ok" then some okRoute else none

/-- A headers-read result for GET /ok over HTTP/1.1. -/
def rrOK : HeadersReadResult :=
  ⟨0, 1, "GET", "/ok", "HTTP/1.1", []⟩

/-- A headers-read result with no protocol error and a failed low-level
read (ioStatus 0). -/
def rrDrop : HeadersReadResult :=
  ⟨0, 0, "GET", "/ok", "HTTP/1.1", []⟩

/-- An interceptor that short-circuits every request with a 418 Response. -/
def intTea : Interceptor :=
  fun _ => Except.ok (some ⟨418, "tea", []⟩)

end Oatpp

namespace Oatpp

/-- Claim C4, counterexample: `getSocketNonBlocking` does NOT distinguish
lock contention from absence of a result.  On a valid, unfulfilled
submission, the contended call and the uncontended call return the same
null socket, so a polling caller cannot tell retry-later apart from
no-result. -/
theorem getSocketNonBlocking_contention_indistinct :
    getSocketNonBlocking ⟨none, true⟩ false = getSocketNonBlocking ⟨none, true⟩ true
    ∧ getSocketNonBlocking ⟨none, true⟩ false = none
    ∧ getSocketNonBlocking ⟨none, true⟩ true = none := by
  exact ⟨rfl, rfl, rfl⟩

/-- Claim C4, amended: `getSocketNonBlocking` returns the null socket both
when the lock is contended and when the lock is acquired but no socket has
been set (and also when the submission is invalid); when the submission is
valid and the lock is acquired it returns `m_socket` as is. -/
theorem getSocketNonBlocking_null_cases (s : ConnectionSubmission) :
    getSocketNonBlocking s false = none
    ∧ (s.m_socket = none → getSocketNonBlocking s true = none)
    ∧ (s.m_valid = true → getSocketNonBlocking s true = s.m_socket)
    ∧ (s.m_valid = false → getSocketNonBlocking s true = none) := by
  cases s with
  | mk sock valid =>
    cases valid <;> simp [getSocketNonBlocking]

/-- Witness for the amended C4 statement at a concrete submission. -/
theorem getSocketNonBlocking_null_cases_witness :
    getSocketNonBlocking ⟨none, true⟩ true = none
    ∧ getSocketNonBlocking ⟨some 5, true⟩ true = some 5 := by
  exact ⟨(getSocketNonBlocking_null_cases ⟨none, true⟩).2.1 rfl,
         (getSocketNonBlocking_null_cases ⟨some 5, true⟩).2.2.1 rfl⟩

/-- Claim C5, counterexample: fulfillment is NOT at-most-once.  After
`setSocket` with socket 1, a second `setSocket` with socket 2 overwrites
the slot: subsequent reads return socket 2, not socket 1. -/
theorem setSocket_overwrites :
    getSocket (setSocket (setSocket ⟨none, true⟩ 1) 2) = some 2
    ∧ (some 2 : Option Nat) ≠ some 1 := by
  exact ⟨rfl, by decide⟩

/-- Claim C5, amended: `setSocket` assigns unconditionally, so the second
of two calls wins — reads after `setSocket s'` return s', and two
successive calls are equivalent to the last one alone. -/
theorem setSocket_last_wins (s : ConnectionSubmission) (a b : Nat) :
    setSocket (setSocket s a) b = setSocket s b
    ∧ getSocket (setSocket (setSocket s a) b) = some b := by
  exact ⟨rfl, rfl⟩

/-- The error-handler slot survives any single `setErrorHandler` call as a
non-null value. -/
theorem setErrorHandler_isSome (h : HttpConnectionHandler) (arg : Option EHObj) :
    ((setErrorHandler h arg).m_errorHandler).isSome = true := by
  cases arg <;> simp [setErrorHandler]

/-- Folding `setErrorHandler` over any argument list preserves a non-null
error-handler slot. -/
theorem foldl_setErrorHandler_isSome (args : List (Option EHObj))
    (h : HttpConnectionHandler) (h0 : (h.m_errorHandler).isSome = true) :
    ((args.foldl setErrorHandler h).m_errorHandler).isSome = true := by
  induction args generalizing h with
  | nil => exact h0
  | cons a args ih =>
    exact ih (setErrorHandler h a) (setErrorHandler_isSome h a)

/-- Claim C9: the `HttpConnectionHandler` error handler is never null — the
constructor installs a default error handler, `setErrorHandler` with a null
argument replaces it with a freshly created default, `setErrorHandler`
with a non-null argument stores it, and after the constructor followed by
any sequence of `setErrorHandler` calls the field holds a valid handler. -/
theorem errorHandler_never_null (router : Nat) (args : List (Option EHObj)) :
    (mkHttpConnectionHandler router).m_errorHandler = some defaultEH
    ∧ (∀ h : HttpConnectionHandler, (setErrorHandler h none).m_errorHandler = some defaultEH)
    ∧ (∀ h : HttpConnectionHandler, ∀ e : EHObj,
         (setErrorHandler h (some e)).m_errorHandler = some e)
    ∧ ((args.foldl setErrorHandler (mkHttpConnectionHandler router)).m_errorHandler).isSome
        = true := by
  refine ⟨rfl, fun h => rfl, fun h e => rfl, ?_⟩
  exact foldl_setErrorHandler_isSome args (mkHttpConnectionHandler router) rfl

/-- Claim C7: when the header reader reports no protocol error
(`error.status.code = 0`) but a non-positive low-level I/O result,
`processRequest` returns no Response and forces the ConnectionState
out-parameter to CLOSE, whatever router, error handler, interceptors and
incoming connection state are in play. -/
theorem processRequest_io_fail_drops (router : String → String → Option Route)
    (rr : HeadersReadResult) (eh : ErrorHandler) (ints : List Interceptor)
    (cs : ConnectionState)
    (h0 : rr.errorStatusCode = 0) (h1 : rr.ioStatus ≤ 0) :
    processRequest router rr eh ints cs = (none, ConnectionState.CLOSE) := by
  unfold processRequest
  rw [h0]
  simp [h1]

/-- Witness for C7 at a concrete headers-read result with ioStatus 0. -/
theorem processRequest_io_fail_drops_witness :
    processRequest okRouter rrDrop ehEcho [] ConnectionState.KEEP_ALIVE
      = (none, ConnectionState.CLOSE) :=
  processRequest_io_fail_drops okRouter rrDrop ehEcho [] ConnectionState.KEEP_ALIVE
    rfl (by decide)

/-- Claim C2, counterexample: the asynchronous error transition does NOT
preserve the fault's specific status.  A protocol fault with status 503 and
message "overloaded" reaches `Coroutine::handleError` as a type-erased
async error; with no Response in flight the coroutine forms the error
Response with status 500, while the synchronous step-6 contract (and the
spec's asserted async contract) produces status 503. -/
theorem coroutineHandleError_loses_status :
    coroutineHandleError ehEcho none (faultToAsyncError (Exn.httpError 503 "overloaded" []))
        = HandleErrorAction.yieldToResponseFormed ⟨500, "overloaded", []⟩
    ∧ specAsyncErrorResponse ehEcho (Exn.httpError 503 "overloaded" [])
        = ⟨503, "overloaded", []⟩
    ∧ syncFaultResponse ehEcho (Exn.httpError 503 "overloaded" [])
        = ⟨503, "overloaded", []⟩
    ∧ (⟨500, "overloaded", []⟩ : Response) ≠ ⟨503, "overloaded", []⟩ := by
  exact ⟨rfl, rfl, rfl, by decide⟩

/-- Claim C2, amended: for every fault other than a broken-pipe I/O fault,
when no Response is in flight `Coroutine::handleError` maps the fault to an
error Response with fixed status 500 and the fault's message (not the
fault's own status/headers) and yields to ResponseFormed; when a Response
was already in flight, the connection is dropped and the fault is surfaced
to the scheduler. -/
theorem coroutineHandleError_contract (eh : ErrorHandler)
    (cur : Option Response) (e : AsyncError)
    (hnb : ¬(e.isAsyncIOError = true ∧ e.ioCode = BROKEN_PIPE)) :
    (cur = none →
       coroutineHandleError eh cur e
         = HandleErrorAction.yieldToResponseFormed (eh 500 e.msg []))
    ∧ (∀ r : Response, cur = some r →
       coroutineHandleError eh cur e = HandleErrorAction.surfaceToScheduler) := by
  have hcond : (e.isAsyncIOError && (e.ioCode == BROKEN_PIPE)) = false := by
    by_cases hb : (e.isAsyncIOError && (e.ioCode == BROKEN_PIPE)) = true
    · exfalso
      apply hnb
      rw [Bool.and_eq_true] at hb
      exact ⟨hb.1, eq_of_beq hb.2⟩
    · simpa using hb
  constructor
  · intro hc
    simp [coroutineHandleError, hcond, hc]
  · intro r hc
    simp [coroutineHandleError, hcond, hc]

/-- Witness for the amended C2 statement: a generic fault with message
"boom" yields a 500 Response when no Response is in flight, and surfaces to
the scheduler when one is. -/
theorem coroutineHandleError_contract_witness :
    coroutineHandleError ehEcho none (faultToAsyncError (Exn.stdExn "boom"))
        = HandleErrorAction.yieldToResponseFormed ⟨500, "boom", []⟩
    ∧ coroutineHandleError ehEcho (some ⟨200, "hello", []⟩)
        (faultToAsyncError (Exn.stdExn "boom"))
        = HandleErrorAction.surfaceToScheduler := by
  exact ⟨(coroutineHandleError_contract ehEcho none (faultToAsyncError (Exn.stdExn "boom"))
            (by decide)).1 rfl,
         (coroutineHandleError_contract ehEcho (some ⟨200, "hello", []⟩)
            (faultToAsyncError (Exn.stdExn "boom")) (by decide)).2 ⟨200, "hello", []⟩ rfl⟩

/-- Claim C3, counterexample: the registry CAN hold a name whose Interface
has been destroyed, and `obtainShared` then returns a null Interface — the
lookup performs no defensive re-check.  The state is reached by creating
the Interface for "x" and then dropping its last strong reference: the weak
registry entry expires before the destructor (which unregisters) runs, and
`obtainShared` called in that window returns `it->second.lock()`, a null
pointer, instead of constructing a fresh Interface. -/
theorem obtainShared_null_on_expired :
    runReg ⟨[], 0⟩ [RegEvent.obtain "x", RegEvent.dropLastRef "x"]
        = ⟨[("x", WeakEntry.expired)], 1⟩
    ∧ (obtainShared ⟨[("x", WeakEntry.expired)], 1⟩ "x").1 = none := by
  exact ⟨rfl, rfl⟩

/-- Claim C3, amended: `obtainShared` returns the existing Interface when
the registry holds a live entry for the name, and constructs, registers and
returns a fresh Interface when the name is absent; but when the registry
holds an expired entry (the Interface's last reference was dropped and its
destructor has not yet unregistered the name), it returns a null Interface
— there is no defensive re-check on lookup. -/
theorem obtainShared_cases (st : RegistryState) (name : String) :
    (∀ id : Nat, findEntry st.entries name = some (WeakEntry.alive id) →
       obtainShared st name = (some id, st))
    ∧ (findEntry st.entries name = none →
       obtainShared st name =
         (some st.nextId,
          ⟨(name, WeakEntry.alive st.nextId) :: st.entries, st.nextId + 1⟩))
    ∧ (findEntry st.entries name = some WeakEntry.expired →
       (obtainShared st name).1 = none) := by
  refine ⟨?_, ?_, ?_⟩
  · intro id h
    unfold obtainShared
    rw [h]
    rfl
  · intro h
    unfold obtainShared
    rw [h]
  · intro h
    unfold obtainShared
    rw [h]
    rfl

/-- Witness for the amended C3 statement: a live entry is returned as is,
and an absent name gets a freshly registered Interface. -/
theorem obtainShared_cases_witness :
    obtainShared ⟨[("x", WeakEntry.alive 7)], 8⟩ "x"
        = (some 7, ⟨[("x", WeakEntry.alive 7)], 8⟩)
    ∧ obtainShared ⟨[], 3⟩ "y" = (some 3, ⟨[("y", WeakEntry.alive 3)], 4⟩) := by
  exact ⟨(obtainShared_cases ⟨[("x", WeakEntry.alive 7)], 8⟩ "x").1 7 rfl,
         (obtainShared_cases ⟨[], 3⟩ "y").2.1 rfl⟩

/-- Interceptors that all pass leave the interceptor loop at the tail of
the chain. -/
theorem interceptorLoop_append_pass (pre rest : List Interceptor) (req : Request)
    (h : ∀ j ∈ pre, j req = Except.ok none) :
    interceptorLoop (pre ++ rest) req = interceptorLoop rest req := by
  induction pre with
  | nil => rfl
  | cons i pre ih =>
    have hi : i req = Except.ok none := h i (List.mem_cons_self i pre)
    have hrec := ih (fun j hj => h j (List.mem_cons_of_mem i hj))
    simp only [List.cons_append, interceptorLoop, hi]
    exact hrec

/-- A chain of interceptors that all pass produces no Response. -/
theorem interceptorLoop_all_pass (l : List Interceptor) (req : Request)
    (h : ∀ j ∈ l, j req = Except.ok none) :
    interceptorLoop l req = Except.ok none := by
  have := interceptorLoop_append_pass l [] req h
  simpa using this

/-- Claim C8: in both the synchronous pipeline and the asynchronous state
machine, interceptors run in registration order and the first interceptor
returning a non-null Response short-circuits the chain: that Response is
the exchange's Response whatever the endpoint and the later interceptors
are (so neither is invoked), and in the asynchronous machine the coroutine
yields straight to ResponseFormed; if every interceptor passes, the
synchronous pipeline dispatches the endpoint and propagates its outcome,
and the asynchronous machine proceeds to RequestFormed (endpoint
dispatch). -/
theorem interceptor_chain_contract
    (router : String → String → Option Route) (eh : ErrorHandler)
    (rr : HeadersReadResult) (route : Route)
    (hroute : router rr.method rr.path = some route)
    (pre post : List Interceptor) (i : Interceptor) (r : Response)
    (hpre : ∀ j ∈ pre, j (mkRequest rr) = Except.ok none)
    (hi : i (mkRequest rr) = Except.ok (some r)) :
    (∀ ep : Endpoint, tryBlock (pre ++ i :: post) ep (mkRequest rr) = Except.ok r)
    ∧ onHeadersParsed router eh (pre ++ i :: post) rr = CoroutineStep.responseFormed r
    ∧ ∀ l : List Interceptor, (∀ j ∈ l, j (mkRequest rr) = Except.ok none) →
        (∀ ep : Endpoint, tryBlock l ep (mkRequest rr) = ep (mkRequest rr))
        ∧ onHeadersParsed router eh l rr = CoroutineStep.requestFormed := by
  have hloop : interceptorLoop (pre ++ i :: post) (mkRequest rr)
      = Except.ok (some r) := by
    rw [interceptorLoop_append_pass pre (i :: post) (mkRequest rr) hpre]
    simp only [interceptorLoop, hi]
  refine ⟨?_, ?_, ?_⟩
  · intro ep
    simp only [tryBlock, hloop]
  · simp only [onHeadersParsed, hroute, hloop]
  · intro l hl
    have hnone := interceptorLoop_all_pass l (mkRequest rr) hl
    exact ⟨fun ep => by simp only [tryBlock, hnone],
           by simp only [onHeadersParsed, hroute, hnone]⟩

/-- Witness for C8: the 418 interceptor short-circuits GET /ok in both
pipelines; with no interceptors, the endpoint's Response is propagated and
the asynchronous machine proceeds to endpoint dispatch. -/
theorem interceptor_chain_contract_witness :
    tryBlock [intTea] epOK (mkRequest rrOK) = Except.ok ⟨418, "tea", []⟩
    ∧ onHeadersParsed okRouter ehEcho [intTea] rrOK
        = CoroutineStep.responseFormed ⟨418, "tea", []⟩
    ∧ tryBlock [] epOK (mkRequest rrOK) = epOK (mkRequest rrOK)
    ∧ onHeadersParsed okRouter ehEcho [] rrOK = CoroutineStep.requestFormed := by
  have h := interceptor_chain_contract okRouter ehEcho rrOK okRoute rfl [] [] intTea
      ⟨418, "tea", []⟩ (fun j hj => absurd hj (List.not_mem_nil j)) rfl
  have h3 := h.2.2 [] (fun j hj => absurd hj (List.not_mem_nil j))
  exact ⟨h.1 epOK, h.2.1, h3.1 epOK, h3.2⟩

/-- Adding the server header makes it present. -/
theorem headerExists_putHeaderIfNotExists (key value : String) (hs : Headers) :
    headerExists key (putHeaderIfNotExists key value hs) = true := by
  by_cases h : headerExists key hs
  · simp [putHeaderIfNotExists, h]
  · have hfalse : headerExists key hs = false := by simpa using h
    unfold putHeaderIfNotExists
    rw [hfalse]
    simp [headerExists, List.any_append]

/-- Claim C1, counterexample: a fault raised by the endpoint yields an
error Response that is returned WITHOUT the server-header finalization and
WITHOUT deriving the ConnectionState.  On GET /fault (an HTTP/1.0 request,
derived state CLOSE), with the out-parameter holding KEEP_ALIVE from a
previous exchange, the endpoint's 503 fault produces a Response with no
server header and the out-parameter keeps KEEP_ALIVE. -/
theorem processRequest_fault_skips_finalization :
    processRequest faultRouter rrFault ehEcho [] ConnectionState.KEEP_ALIVE
        = (some ⟨503, "overloaded", []⟩, ConnectionState.KEEP_ALIVE)
    ∧ headerExists SERVER [] = false
    ∧ considerConnectionState (mkRequest rrFault) ⟨503, "overloaded", []⟩
        = ConnectionState.CLOSE
    ∧ ConnectionState.KEEP_ALIVE ≠ ConnectionState.CLOSE := by
  exact ⟨rfl, rfl, rfl, by decide⟩

/-- Claim C1, amended: after a successful header read and route match, when
the interceptor/endpoint phase returns a Response normally,
`processRequest` adds the server identification header if absent and
derives the ConnectionState out-parameter from the request/response
headers; but when that phase raises a fault, the error Response produced by
the error handler is returned as is — no server-header finalization — and
the ConnectionState out-parameter is left at its incoming value rather
than derived. -/
theorem processRequest_finalization (router : String → String → Option Route)
    (rr : HeadersReadResult) (eh : ErrorHandler) (ints : List Interceptor)
    (cs : ConnectionState) (route : Route)
    (h0 : rr.errorStatusCode = 0) (h1 : 0 < rr.ioStatus)
    (h2 : router rr.method rr.path = some route) :
    (∀ resp : Response,
       tryBlock ints route.endpoint (mkRequest rr) = Except.ok resp →
       processRequest router rr eh ints cs =
         (some { resp with
                   headers := putHeaderIfNotExists SERVER SERVER_VALUE resp.headers },
          considerConnectionState (mkRequest rr)
            { resp with
                headers := putHeaderIfNotExists SERVER SERVER_VALUE resp.headers })
       ∧ headerExists SERVER (putHeaderIfNotExists SERVER SERVER_VALUE resp.headers)
           = true)
    ∧ (∀ e : Exn, tryBlock ints route.endpoint (mkRequest rr) = Except.error e →
         processRequest router rr eh ints cs = (some (syncFaultResponse eh e), cs)) := by
  have hio : ¬(rr.ioStatus ≤ 0) := not_le.mpr h1
  constructor
  · intro resp hq
    refine ⟨?_, headerExists_putHeaderIfNotExists SERVER SERVER_VALUE resp.headers⟩
    unfold processRequest
    rw [h0]
    simp only [ne_eq, not_true_eq_false, if_false, hio, h2, hq]
  · intro e hq
    unfold processRequest
    rw [h0]
    simp only [ne_eq, not_true_eq_false, if_false, hio, h2, hq]

/-- Witness for the amended C1 statement: GET /ok dispatched to the 200
endpoint gains the server header and a derived KEEP_ALIVE state; GET
/fault hitting the 503 fault keeps the incoming CLOSE state and the bare
error-handler Response. -/
theorem processRequest_finalization_witness :
    processRequest okRouter rrOK ehEcho [] ConnectionState.CLOSE
        = (some ⟨200, "hello", [(SERVER, SERVER_VALUE)]⟩, ConnectionState.KEEP_ALIVE)
    ∧ processRequest faultRouter rrFault ehEcho [] ConnectionState.CLOSE
        = (some ⟨503, "overloaded", []⟩, ConnectionState.CLOSE) := by
  constructor
  · have h := (processRequest_finalization okRouter rrOK ehEcho [] ConnectionState.CLOSE
        okRoute rfl (by decide) rfl).1 ⟨200, "hello", []⟩ rfl
    exact h.1.trans (by rfl)
  · exact (processRequest_finalization faultRouter rrFault ehEcho [] ConnectionState.CLOSE
        faultRoute rfl (by decide) rfl).2 (Exn.httpError 503 "overloaded" []) rfl

/-- The ids handed out by consecutive connects: length bookkeeping. -/
theorem idsFrom_length (a n : Nat) : (idsFrom a n).length = n := by
  induction n generalizing a with
  | zero => rfl
  | succ n ih => simp [idsFrom, ih]

/-- `runConnects` returns the consecutive submission ids starting at the
current counter. -/
theorem runConnects_ids (n : Nat) (st : VInterfaceState) :
    (runConnects st n).1 = idsFrom st.nextSub n := by
  induction n generalizing st with
  | zero => rfl
  | succ n ih => simp [runConnects, connect, idsFrom, ih]

/-- `runConnects` appends the fresh submission ids at the back of the
queue and advances the counter, touching nothing else. -/
theorem runConnects_state (n : Nat) (st : VInterfaceState) :
    (runConnects st n).2 =
      { st with m_submissions := st.m_submissions ++ idsFrom st.nextSub n,
                nextSub := st.nextSub + n } := by
  induction n generalizing st with
  | zero => simp [runConnects, idsFrom]
  | succ n ih =>
    obtain ⟨subs, ns, np, ful⟩ := st
    simp [runConnects, connect, idsFrom, ih, List.append_assoc]
    omega

/-- Each `accept` pops the front submission and fulfills exactly it, so a
run of accepts fulfills the queue's prefix in order. -/
theorem runAccepts_order (n : Nat) (st : VInterfaceState)
    (h : n ≤ st.m_submissions.length) :
    ((runAccepts st n).fulfilled).map Prod.fst
      = (st.fulfilled).map Prod.fst ++ st.m_submissions.take n := by
  induction n generalizing st with
  | zero => simp [runAccepts]
  | succ n ih =>
    match hq : st.m_submissions with
    | [] =>
      rw [hq] at h
      simp at h
    | sub :: rest =>
      have hacc : accept st = some (⟨st.nextPipe, st.nextPipe + 1⟩,
          { st with m_submissions := rest, nextPipe := st.nextPipe + 2,
                    fulfilled := st.fulfilled ++ [(sub, ⟨st.nextPipe + 1, st.nextPipe⟩)] }) := by
        unfold accept
        rw [hq]
      have hlen : n ≤ rest.length := by
        rw [hq] at h
        simpa using h
      rw [runAccepts, hacc]
      rw [ih _ hlen]
      simp [hq, List.map_append, List.append_assoc]

/-- Claim C6: for every N, after N `connect()` calls followed by N
`accept(wait=true)` calls on a fresh Interface, the submissions are
fulfilled in FIFO order — the sequence of submission ids fulfilled by the
successive accepts equals the sequence of submission ids returned by the
successive connects. -/
theorem connect_accept_fifo (N : Nat) :
    ((runAccepts (runConnects initVInterface N).2 N).fulfilled).map Prod.fst
      = (runConnects initVInterface N).1 := by
  rw [runConnects_state N initVInterface, runConnects_ids N initVInterface]
  rw [runAccepts_order N _ (by simp [initVInterface, idsFrom_length])]
  simp [initVInterface, List.take_of_length_le, idsFrom_length]

/-- Claim C10: `HttpConnectionHandler::stop()` is a no-op — it leaves the
handler's router, body decoder, error handler and interceptor list
unchanged, leaves the set of already-spawned connection tasks unchanged,
and commutes with spawning, so tasks run to their own completion
unaffected. -/
theorem stop_is_noop (w : ServerWorld) :
    stop w = w
    ∧ (stop w).handler.m_router = w.handler.m_router
    ∧ (stop w).handler.m_bodyDecoder = w.handler.m_bodyDecoder
    ∧ (stop w).handler.m_errorHandler = w.handler.m_errorHandler
    ∧ (stop w).handler.m_requestInterceptors = w.handler.m_requestInterceptors
    ∧ (stop w).runningTasks = w.runningTasks
    ∧ ∀ conn : Nat, stop (handleConnection w conn) = handleConnection (stop w) conn := by
  exact ⟨rfl, rfl, rfl, rfl, rfl, rfl, fun conn => rfl⟩

end Oatpp
